import Mathlib

/-!
Verification of the `CandleLoader` module (`src/candleLoader.js`).

The module is a single class managing one loaded 3D model (a candle), a
procedural two-cone flame effect, and a point light, over a THREE.js scene.
We embed it shallowly: numbers are exact rationals, the trigonometric
`Math.sin` of the platform is an abstract parameter `sin : ℚ → ℚ` (no claim
depends on properties of sine, only on which expressions are computed), the
asynchronous loader callback is modelled by passing the load outcome as an
explicit argument, and scene-graph reference semantics are modelled by
giving every scene-attached object a fresh numeric id: the scene is the list
of attached ids (tagged by kind), while the contents of the objects the
controller owns live in the controller state, as in the source where the
scene children are the very objects the fields reference.
-/

namespace CandleSpec

/-- A THREE.js `Vector3`/`Euler`-style triple of exact rational coordinates. -/
structure Vec3 where
  x : ℚ
  y : ℚ
  z : ℚ
deriving DecidableEq, Repr

/-- A descendant node visited by `candle.traverse`: only the fields the
traversal reads or writes (`isMesh`, shadow flags, material refresh flag). -/
structure ChildNode where
  isMesh : Bool
  castShadow : Bool
  receiveShadow : Bool
  hasMaterial : Bool
  materialNeedsUpdate : Bool
deriving DecidableEq, Repr

/-- The root node `gltf.scene` returned by the GLTF loader: its transform and
the flat list of descendant nodes the traversal visits. -/
structure GltfScene where
  position : Vec3
  scale : Vec3
  rotation : Vec3
  children : List ChildNode
deriving DecidableEq, Repr

/-- A `THREE.ConeGeometry(radius, height, radialSegments)`. -/
structure ConeGeometry where
  radius : ℚ
  height : ℚ
  radialSegments : ℕ
deriving DecidableEq, Repr

/-- A `THREE.MeshBasicMaterial({color, transparent, opacity})`. -/
structure BasicMaterial where
  color : ℕ
  transparent : Bool
  opacity : ℚ
deriving DecidableEq, Repr

/-- A `THREE.Mesh` used for the two flame cones: geometry, material and the
transform fields the module touches. A fresh mesh has position `(0,0,0)` and
scale `(1,1,1)`. -/
structure FlameMesh where
  geometry : ConeGeometry
  material : BasicMaterial
  position : Vec3
  scale : Vec3
deriving DecidableEq, Repr

/-- The `THREE.Group` holding the two flame cones: the module only ever sets
its position and scale (its children are the two meshes stored separately on
the controller, mirroring the reference sharing in the source). -/
structure FlameGroup where
  position : Vec3
  scale : Vec3
deriving DecidableEq, Repr

/-- A `THREE.PointLight(color, intensity, distance)` with the shadow-camera
fields the module configures. -/
structure PointLight where
  color : ℕ
  intensity : ℚ
  distance : ℚ
  position : Vec3
  castShadow : Bool
  shadowCameraNear : ℚ
  shadowCameraFar : ℚ
deriving DecidableEq, Repr

/-- Kind tag for an object attached to the scene. `otherK` stands for
scene content the host put there before handing the scene to the
controller. -/
inductive SceneKind where
  | candleK
  | flameK
  | lightK
  | otherK
deriving DecidableEq, Repr

/-- The state of one `CandleLoader` instance plus the scene it mutates.
`scene` is the list of attached objects as (id, kind) pairs; `candle`,
`flame`, `flameLight` pair the id under which the object sits in the scene
with the object's current contents; `mainFlame`/`innerFlame` are the extra
references the source keeps to the two cone meshes (children of the flame
group); `flameTime` is the accumulated animation time; `nextId` is the
fresh-id counter standing for object identity/allocation. -/
structure CandleLoader where
  scene : List (ℕ × SceneKind)
  candle : Option (ℕ × GltfScene)
  flame : Option (ℕ × FlameGroup)
  flameLight : Option (ℕ × PointLight)
  mainFlame : Option FlameMesh
  innerFlame : Option FlameMesh
  flameTime : ℚ
  nextId : ℕ
deriving DecidableEq, Repr

/-- `new CandleLoader(scene)`: all object references null, time zero. -/
def CandleLoader.init (scene : List (ℕ × SceneKind)) (nextId : ℕ) : CandleLoader :=
  { scene := scene
    candle := none
    flame := none
    flameLight := none
    mainFlame := none
    innerFlame := none
    flameTime := 0
    nextId := nextId }

/-- The `options` argument of `loadCandle`: every field optional, with the
defaults applied by the destructuring in the source (`x = 0, y = 0, z = 0,
scale = 0.1, rotation = 0`). -/
structure LoadOptions where
  x : Option ℚ
  y : Option ℚ
  z : Option ℚ
  scale : Option ℚ
  rotation : Option ℚ
deriving DecidableEq, Repr

/-- Outcome of the external GLTF load, delivered to exactly one of the two
callbacks of `this.loader.load`. -/
inductive GltfLoadResult where
  | success (gltf : GltfScene)
  | failure (err : String)
deriving DecidableEq, Repr

/-- `THREE.Scene.prototype.remove(obj)`: detach the object with the given id.
Ids are allocated from a counter, hence unique among controller-owned
objects, so filtering equals removing the one occurrence. -/
def sceneRemove (scene : List (ℕ × SceneKind)) (id : ℕ) : List (ℕ × SceneKind) :=
  scene.filter (fun p => p.1 ≠ id)

/-- Body of the `candle.traverse` callback: meshes get
`castShadow = receiveShadow = true` and, when they carry a material,
`material.needsUpdate = true`. -/
def markShadows (c : ChildNode) : ChildNode :=
  if c.isMesh then
    { c with
        castShadow := true
        receiveShadow := true
        materialNeedsUpdate := if c.hasMaterial then true else c.materialNeedsUpdate }
  else c

/-- `createFlame(x, y, z, candleScale)`: builds the outer cone (radius 0.3,
height 1.0, 8 segments, color 0xffa500, opacity 0.8, base offset 0.5), the
inner cone (radius 0.15, height 0.7, 8 segments, color 0xffff00, opacity
0.9, base offset 0.4), positions the group at `(x, y + 17*candleScale, z)`
with uniform scale `candleScale*2`, attaches it, then creates the point
light `PointLight(0xff6600, 1.5, 10)` at `(x, y + 17*candleScale + 0.5, z)`
with shadow camera near 0.1 / far 10 and attaches it. -/
def createFlame (st : CandleLoader) (x y z candleScale : ℚ) : CandleLoader :=
  let mainFlame : FlameMesh :=
    { geometry := ⟨3/10, 1, 8⟩
      material := ⟨0xffa500, true, 8/10⟩
      position := ⟨0, 1/2, 0⟩
      scale := ⟨1, 1, 1⟩ }
  let innerFlame : FlameMesh :=
    { geometry := ⟨15/100, 7/10, 8⟩
      material := ⟨0xffff00, true, 9/10⟩
      position := ⟨0, 4/10, 0⟩
      scale := ⟨1, 1, 1⟩ }
  let flameHeight : ℚ := 17 * candleScale
  let flameGroup : FlameGroup :=
    { position := ⟨x, y + flameHeight, z⟩
      scale := ⟨candleScale * 2, candleScale * 2, candleScale * 2⟩ }
  let flameId := st.nextId
  let lightId := st.nextId + 1
  let light : PointLight :=
    { color := 0xff6600
      intensity := 3/2
      distance := 10
      position := ⟨x, y + flameHeight + 1/2, z⟩
      castShadow := true
      shadowCameraNear := 1/10
      shadowCameraFar := 10 }
  { st with
      flame := some (flameId, flameGroup)
      mainFlame := some mainFlame
      innerFlame := some innerFlame
      flameLight := some (lightId, light)
      scene := st.scene ++ [(flameId, SceneKind.flameK), (lightId, SceneKind.lightK)]
      nextId := st.nextId + 2 }

/-- `loadCandle(options)`, with the load outcome made explicit. On success:
stores `gltf.scene`, sets its position/scale/Y-rotation, marks descendant
meshes for shadows, attaches it, calls `createFlame(x, y, z, scale)`, and
resolves with the candle node. On failure: rejects with the error, touching
nothing. -/
def loadCandle (st : CandleLoader) (options : LoadOptions) (result : GltfLoadResult) :
    CandleLoader × Except String GltfScene :=
  let x := options.x.getD 0
  let y := options.y.getD 0
  let z := options.z.getD 0
  let scale := options.scale.getD (1/10)
  let rotation := options.rotation.getD 0
  match result with
  | GltfLoadResult.success gltf =>
      let candle : GltfScene :=
        { gltf with
            position := ⟨x, y, z⟩
            scale := ⟨scale, scale, scale⟩
            rotation := { gltf.rotation with y := rotation }
            children := gltf.children.map markShadows }
      let candleId := st.nextId
      let st1 : CandleLoader :=
        { st with
            candle := some (candleId, candle)
            scene := st.scene ++ [(candleId, SceneKind.candleK)]
            nextId := st.nextId + 1 }
      let st2 := createFlame st1 x y z scale
      (st2, Except.ok candle)
  | GltfLoadResult.failure err => (st, Except.error err)

/-- `removeCandle()`: detach and null each of candle, flame group, light,
each guarded by its own non-null test. -/
def removeCandle (st : CandleLoader) : CandleLoader :=
  let st1 :=
    match st.candle with
    | some (id, _) => { st with scene := sceneRemove st.scene id, candle := none }
    | none => st
  let st2 :=
    match st1.flame with
    | some (id, _) => { st1 with scene := sceneRemove st1.scene id, flame := none }
    | none => st1
  match st2.flameLight with
  | some (id, _) => { st2 with scene := sceneRemove st2.scene id, flameLight := none }
  | none => st2

/-- `updatePosition(x, y, z)`: reposition the candle node if present, else
do nothing. -/
def updatePosition (st : CandleLoader) (x y z : ℚ) : CandleLoader :=
  match st.candle with
  | some (id, c) => { st with candle := some (id, { c with position := ⟨x, y, z⟩ }) }
  | none => st

/-- `animate(deltaTime)` (source default `deltaTime = 0.016`), parametrised
by the platform `Math.sin`. Early-returns unless both the flame group and
the light exist; accumulates time, computes the three-sine flicker, then
updates outer cone, inner cone and light exactly as the source does. -/
def animate (sin : ℚ → ℚ) (st : CandleLoader) (deltaTime : ℚ) : CandleLoader :=
  if st.flame.isNone || st.flameLight.isNone then st
  else
    let t := st.flameTime + deltaTime
    let flicker1 := sin (t * 8) * (3/100)
    let flicker2 := sin (t * (25/2)) * (2/100)
    let flicker3 := sin (t * 20) * (15/1000)
    let totalFlicker := flicker1 + flicker2 + flicker3
    let st1 : CandleLoader := { st with flameTime := t }
    let st2 :=
      match st1.mainFlame with
      | some m =>
          let scaleVar := 1 + totalFlicker
          { st1 with
              mainFlame := some
                { m with
                    scale := ⟨scaleVar, scaleVar, scaleVar⟩
                    position := { m.position with x := sin (t * 5) * (2/100) } } }
      | none => st1
    let st3 :=
      match st2.innerFlame with
      | some m =>
          let innerScale := 1 + totalFlicker * (12/10)
          { st2 with
              innerFlame := some
                { m with
                    scale := ⟨innerScale, innerScale, innerScale⟩
                    position := { m.position with x := sin (t * 6) * (15/1000) } } }
      | none => st2
    match st3.flameLight with
    | some (id, l) =>
        { st3 with
            flameLight := some (id,
              { l with
                  intensity := 3/2 + totalFlicker * 2
                  position := { l.position with y := l.position.y + totalFlicker * (1/10) } }) }
    | none => st3

/-- The three-sine flicker value at accumulated time `t`, as computed in
`animate`. -/
def flickerAt (sin : ℚ → ℚ) (t : ℚ) : ℚ :=
  sin (t * 8) * (3/100) + sin (t * (25/2)) * (2/100) + sin (t * 20) * (15/1000)

/-- States reachable by any sequence of the public operations on a
controller constructed over an arbitrary initial scene. -/
inductive Reachable (sin : ℚ → ℚ) : CandleLoader → Prop where
  | init (scene : List (ℕ × SceneKind)) (nextId : ℕ) :
      Reachable sin (CandleLoader.init scene nextId)
  | load (st : CandleLoader) (options : LoadOptions) (result : GltfLoadResult) :
      Reachable sin st → Reachable sin (loadCandle st options result).1
  | animateStep (st : CandleLoader) (dt : ℚ) :
      Reachable sin st → Reachable sin (animate sin st dt)
  | update (st : CandleLoader) (x y z : ℚ) :
      Reachable sin st → Reachable sin (updatePosition st x y z)
  | remove (st : CandleLoader) :
      Reachable sin st → Reachable sin (removeCandle st)

/-! ### Helper lemmas (shared) -/

/-- `animate` never touches the candle reference, the flame-group reference
or its contents, and preserves whether the light reference is set. -/
theorem animate_fields (sin : ℚ → ℚ) (st : CandleLoader) (dt : ℚ) :
    (animate sin st dt).candle = st.candle ∧
    (animate sin st dt).flame = st.flame ∧
    ((animate sin st dt).flameLight).isSome = (st.flameLight).isSome := by
  obtain ⟨s0, c0, f0, l0, m0, i0, t0, n0⟩ := st
  rcases f0 with _ | fg <;> rcases l0 with _ | lp <;>
    rcases m0 with _ | m <;> rcases i0 with _ | i <;>
      simp [animate]

/-- `updatePosition` never touches the flame or light references, and
preserves whether the candle reference is set. -/
theorem updatePosition_fields (st : CandleLoader) (x y z : ℚ) :
    (updatePosition st x y z).flame = st.flame ∧
    (updatePosition st x y z).flameLight = st.flameLight ∧
    ((updatePosition st x y z).candle).isSome = (st.candle).isSome := by
  obtain ⟨s0, c0, f0, l0, m0, i0, t0, n0⟩ := st
  rcases c0 with _ | c <;> simp [updatePosition]

/-- After `removeCandle`, all three owned scene references are null. -/
theorem removeCandle_all_none (st : CandleLoader) :
    (removeCandle st).candle = none ∧ (removeCandle st).flame = none ∧
    (removeCandle st).flameLight = none := by
  obtain ⟨s0, c0, f0, l0, m0, i0, t0, n0⟩ := st
  rcases c0 with _ | c <;> rcases f0 with _ | f <;> rcases l0 with _ | l <;>
    simp [removeCandle]

/-! ### Claim theorems -/

/-- Claim C1: for every fully specified PlacementConfig, after `loadCandle`
resolves successfully the stored model node — which is also the value the
promise resolves with — has position `(x, y, z)`, uniform scale
`(scale, scale, scale)`, and Y-axis rotation equal to `rotation`. -/
theorem loadCandle_success_transform (st : CandleLoader) (x y z scale rotation : ℚ)
    (gltf : GltfScene) :
    ∃ id c,
      (loadCandle st ⟨some x, some y, some z, some scale, some rotation⟩
          (GltfLoadResult.success gltf)).1.candle = some (id, c) ∧
      (loadCandle st ⟨some x, some y, some z, some scale, some rotation⟩
          (GltfLoadResult.success gltf)).2 = Except.ok c ∧
      c.position = ⟨x, y, z⟩ ∧
      c.scale = ⟨scale, scale, scale⟩ ∧
      c.rotation.y = rotation :=
  ⟨st.nextId, _, rfl, rfl, rfl, rfl, rfl⟩

/-- Claim C2: after a successful load, the flame group sits at
`(x, y + 17*scale, z)` with uniform scale `2*scale`, and the point light
sits at `(x, y + 17*scale + 0.5, z)`. -/
theorem loadCandle_flame_light_placement (st : CandleLoader) (x y z scale : ℚ)
    (rot : Option ℚ) (gltf : GltfScene) :
    ((loadCandle st ⟨some x, some y, some z, some scale, rot⟩
        (GltfLoadResult.success gltf)).1.flame.map (fun p => p.2.position)) =
      some ⟨x, y + 17 * scale, z⟩ ∧
    ((loadCandle st ⟨some x, some y, some z, some scale, rot⟩
        (GltfLoadResult.success gltf)).1.flame.map (fun p => p.2.scale)) =
      some ⟨2 * scale, 2 * scale, 2 * scale⟩ ∧
    ((loadCandle st ⟨some x, some y, some z, some scale, rot⟩
        (GltfLoadResult.success gltf)).1.flameLight.map (fun p => p.2.position)) =
      some ⟨x, y + 17 * scale + 1/2, z⟩ := by
  refine ⟨rfl, ?_, rfl⟩
  simp [loadCandle, createFlame, mul_comm]

/-- Claim C3: a load failure rejects with the underlying error and leaves the
whole controller state (including the null candle/flame/light references)
unchanged, and a subsequent successful `loadCandle` on that state still
succeeds, populating all three references. -/
theorem loadCandle_failure_keeps_state (st : CandleLoader) (options : LoadOptions)
    (err : String) :
    loadCandle st options (GltfLoadResult.failure err) = (st, Except.error err) ∧
    ∀ options2 gltf, ∃ c,
      (loadCandle (loadCandle st options (GltfLoadResult.failure err)).1 options2
          (GltfLoadResult.success gltf)).2 = Except.ok c ∧
      ((loadCandle (loadCandle st options (GltfLoadResult.failure err)).1 options2
          (GltfLoadResult.success gltf)).1.candle).isSome = true ∧
      ((loadCandle (loadCandle st options (GltfLoadResult.failure err)).1 options2
          (GltfLoadResult.success gltf)).1.flame).isSome = true ∧
      ((loadCandle (loadCandle st options (GltfLoadResult.failure err)).1 options2
          (GltfLoadResult.success gltf)).1.flameLight).isSome = true :=
  ⟨rfl, fun _ _ => ⟨_, rfl, rfl, rfl, rfl⟩⟩

/-- Claim C4: in every state reachable by the public operations, the flame
group and the light are set if and only if the candle handle is set. -/
theorem flame_iff_candle_invariant (sin : ℚ → ℚ) (st : CandleLoader)
    (h : Reachable sin st) :
    ((st.flame).isSome = true ∧ (st.flameLight).isSome = true) ↔
      (st.candle).isSome = true := by
  induction h with
  | init scene nextId => simp [CandleLoader.init]
  | load st' options result hr ih =>
      rcases result with gltf | err
      · simp [loadCandle, createFlame]
      · simpa [loadCandle] using ih
  | animateStep st' dt hr ih =>
      obtain ⟨h1, h2, h3⟩ := animate_fields sin st' dt
      rw [h1, h2, h3]; exact ih
  | update st' x y z hr ih =>
      obtain ⟨h1, h2, h3⟩ := updatePosition_fields st' x y z
      rw [h1, h2, h3]; exact ih
  | remove st' hr ih =>
      obtain ⟨h1, h2, h3⟩ := removeCandle_all_none st'
      rw [h1, h2, h3]; simp

/-- A concrete state obtained by one successful `loadCandle` on a fresh
controller over an empty scene: options
`{x: 1, y: 0, z: 2, scale: 1/5, rotation: 3/2}`, trivial GLTF root node. -/
def loadedState : CandleLoader :=
  (loadCandle (CandleLoader.init [] 0)
    ⟨some 1, some 0, some 2, some (1/5), some (3/2)⟩
    (GltfLoadResult.success ⟨⟨0, 0, 0⟩, ⟨1, 1, 1⟩, ⟨0, 0, 0⟩, []⟩)).1

/-- Witness for claim C4 at the concrete reachable state `loadedState`. -/
theorem flame_iff_candle_invariant_witness :
    ((loadedState.flame).isSome = true ∧ (loadedState.flameLight).isSome = true) ↔
      (loadedState.candle).isSome = true :=
  flame_iff_candle_invariant (fun q => q) loadedState
    (Reachable.load _ _ _ (Reachable.init [] 0))

/-- The outer flame mesh as created by `createFlame`. -/
def mainMesh0 : FlameMesh :=
  { geometry := ⟨3/10, 1, 8⟩
    material := ⟨0xffa500, true, 8/10⟩
    position := ⟨0, 1/2, 0⟩
    scale := ⟨1, 1, 1⟩ }

/-- The inner flame mesh as created by `createFlame`. -/
def innerMesh0 : FlameMesh :=
  { geometry := ⟨15/100, 7/10, 8⟩
    material := ⟨0xffff00, true, 9/10⟩
    position := ⟨0, 4/10, 0⟩
    scale := ⟨1, 1, 1⟩ }

/-- The flame group of `loadedState` (scene id 1). -/
def flameGroup0 : ℕ × FlameGroup :=
  (1, { position := ⟨1, 0 + 17 * (1/5), 2⟩
        scale := ⟨(1/5) * 2, (1/5) * 2, (1/5) * 2⟩ })

/-- The point light of `loadedState` (scene id 2). -/
def light0 : ℕ × PointLight :=
  (2, { color := 0xff6600
        intensity := 3/2
        distance := 10
        position := ⟨1, 0 + 17 * (1/5) + 1/2, 2⟩
        castShadow := true
        shadowCameraNear := 1/10
        shadowCameraFar := 10 })

/-- Claim C5: with an asset loaded, one `animate(dt)` call accumulates
`t = flameTime + dt` and sets the outer flame's uniform scale to
`1 + flicker(t)` with horizontal offset `sin(t*5)*0.02`, and the inner
flame's uniform scale to `1 + flicker(t)*1.2` with horizontal offset
`sin(t*6)*0.015`, where `flicker(t) = sin(t*8)*0.03 + sin(t*12.5)*0.02 +
sin(t*20)*0.015` (`flickerAt`). -/
theorem animate_flame_scales (sin : ℚ → ℚ) (st : CandleLoader) (dt : ℚ)
    (fg : ℕ × FlameGroup) (lp : ℕ × PointLight) (m i : FlameMesh)
    (hf : st.flame = some fg) (hl : st.flameLight = some lp)
    (hm : st.mainFlame = some m) (hi : st.innerFlame = some i) :
    (animate sin st dt).flameTime = st.flameTime + dt ∧
    ((animate sin st dt).mainFlame.map (fun n => n.scale)) =
      some ⟨1 + flickerAt sin (st.flameTime + dt),
            1 + flickerAt sin (st.flameTime + dt),
            1 + flickerAt sin (st.flameTime + dt)⟩ ∧
    ((animate sin st dt).mainFlame.map (fun n => n.position.x)) =
      some (sin ((st.flameTime + dt) * 5) * (2/100)) ∧
    ((animate sin st dt).innerFlame.map (fun n => n.scale)) =
      some ⟨1 + flickerAt sin (st.flameTime + dt) * (12/10),
            1 + flickerAt sin (st.flameTime + dt) * (12/10),
            1 + flickerAt sin (st.flameTime + dt) * (12/10)⟩ ∧
    ((animate sin st dt).innerFlame.map (fun n => n.position.x)) =
      some (sin ((st.flameTime + dt) * 6) * (15/1000)) := by
  simp [animate, flickerAt, hf, hl, hm, hi]

/-- Witness for claim C5: one `animate` call with `sin := id`, `dt = 1` on
the concrete loaded state. -/
theorem animate_flame_scales_witness :
    loadedState.flame = some flameGroup0 ∧
    loadedState.flameLight = some light0 ∧
    loadedState.mainFlame = some mainMesh0 ∧
    loadedState.innerFlame = some innerMesh0 ∧
    ((animate (fun q => q) loadedState 1).flameTime = loadedState.flameTime + 1 ∧
     ((animate (fun q => q) loadedState 1).mainFlame.map (fun n => n.scale)) =
       some ⟨1 + flickerAt (fun q => q) (loadedState.flameTime + 1),
             1 + flickerAt (fun q => q) (loadedState.flameTime + 1),
             1 + flickerAt (fun q => q) (loadedState.flameTime + 1)⟩ ∧
     ((animate (fun q => q) loadedState 1).mainFlame.map (fun n => n.position.x)) =
       some ((fun q => q) ((loadedState.flameTime + 1) * 5) * (2/100)) ∧
     ((animate (fun q => q) loadedState 1).innerFlame.map (fun n => n.scale)) =
       some ⟨1 + flickerAt (fun q => q) (loadedState.flameTime + 1) * (12/10),
             1 + flickerAt (fun q => q) (loadedState.flameTime + 1) * (12/10),
             1 + flickerAt (fun q => q) (loadedState.flameTime + 1) * (12/10)⟩ ∧
     ((animate (fun q => q) loadedState 1).innerFlame.map (fun n => n.position.x)) =
       some ((fun q => q) ((loadedState.flameTime + 1) * 6) * (15/1000))) :=
  ⟨by simp [loadedState, loadCandle, createFlame, CandleLoader.init, flameGroup0],
   by simp [loadedState, loadCandle, createFlame, CandleLoader.init, light0],
   by simp [loadedState, loadCandle, createFlame, CandleLoader.init, mainMesh0],
   by simp [loadedState, loadCandle, createFlame, CandleLoader.init, innerMesh0],
   animate_flame_scales (fun q => q) loadedState 1 flameGroup0 light0 mainMesh0 innerMesh0
     (by simp [loadedState, loadCandle, createFlame, CandleLoader.init, flameGroup0])
     (by simp [loadedState, loadCandle, createFlame, CandleLoader.init, light0])
     (by simp [loadedState, loadCandle, createFlame, CandleLoader.init, mainMesh0])
     (by simp [loadedState, loadCandle, createFlame, CandleLoader.init, innerMesh0])⟩

/-- Claim C6: with an asset loaded, `animate(dt)` sets the light intensity
to `1.5 + flicker(t)*2` and the light's vertical position to its current
vertical position plus `flicker(t)*0.1`; across two consecutive calls the
vertical nudges compound instead of being recomputed from a fixed base. -/
theorem animate_light_update (sin : ℚ → ℚ) (st : CandleLoader) (dt dt2 : ℚ)
    (fg : ℕ × FlameGroup) (lp : ℕ × PointLight) (m i : FlameMesh)
    (hf : st.flame = some fg) (hl : st.flameLight = some lp)
    (hm : st.mainFlame = some m) (hi : st.innerFlame = some i) :
    ((animate sin st dt).flameLight.map (fun p => p.2.intensity)) =
      some (3/2 + flickerAt sin (st.flameTime + dt) * 2) ∧
    ((animate sin st dt).flameLight.map (fun p => p.2.position.y)) =
      some (lp.2.position.y + flickerAt sin (st.flameTime + dt) * (1/10)) ∧
    ((animate sin (animate sin st dt) dt2).flameLight.map (fun p => p.2.position.y)) =
      some (lp.2.position.y + flickerAt sin (st.flameTime + dt) * (1/10)
        + flickerAt sin (st.flameTime + dt + dt2) * (1/10)) := by
  simp [animate, flickerAt, hf, hl, hm, hi]

/-- Witness for claim C6: two `animate` calls with `sin := id`,
`dt = dt2 = 1` on the concrete loaded state. -/
theorem animate_light_update_witness :
    loadedState.flame = some flameGroup0 ∧
    loadedState.flameLight = some light0 ∧
    loadedState.mainFlame = some mainMesh0 ∧
    loadedState.innerFlame = some innerMesh0 ∧
    (((animate (fun q => q) loadedState 1).flameLight.map (fun p => p.2.intensity)) =
       some (3/2 + flickerAt (fun q => q) (loadedState.flameTime + 1) * 2) ∧
     ((animate (fun q => q) loadedState 1).flameLight.map (fun p => p.2.position.y)) =
       some (light0.2.position.y + flickerAt (fun q => q) (loadedState.flameTime + 1) * (1/10)) ∧
     ((animate (fun q => q) (animate (fun q => q) loadedState 1) 1).flameLight.map
         (fun p => p.2.position.y)) =
       some (light0.2.position.y + flickerAt (fun q => q) (loadedState.flameTime + 1) * (1/10)
         + flickerAt (fun q => q) (loadedState.flameTime + 1 + 1) * (1/10))) :=
  ⟨by simp [loadedState, loadCandle, createFlame, CandleLoader.init, flameGroup0],
   by simp [loadedState, loadCandle, createFlame, CandleLoader.init, light0],
   by simp [loadedState, loadCandle, createFlame, CandleLoader.init, mainMesh0],
   by simp [loadedState, loadCandle, createFlame, CandleLoader.init, innerMesh0],
   animate_light_update (fun q => q) loadedState 1 1 flameGroup0 light0 mainMesh0 innerMesh0
     (by simp [loadedState, loadCandle, createFlame, CandleLoader.init, flameGroup0])
     (by simp [loadedState, loadCandle, createFlame, CandleLoader.init, light0])
     (by simp [loadedState, loadCandle, createFlame, CandleLoader.init, mainMesh0])
     (by simp [loadedState, loadCandle, createFlame, CandleLoader.init, innerMesh0])⟩

/-- Claim C7: `removeCandle` is idempotent — a second call is a no-op (and
raises nothing, there being no failing path), and calling it when nothing is
loaded leaves the state exactly as it was. -/
theorem removeCandle_idempotent (st : CandleLoader) :
    removeCandle (removeCandle st) = removeCandle st ∧
    (st.candle = none → st.flame = none → st.flameLight = none →
      removeCandle st = st) := by
  constructor
  · obtain ⟨h1, h2, h3⟩ := removeCandle_all_none st
    generalize removeCandle st = q at h1 h2 h3 ⊢
    simp [removeCandle, h1, h2, h3]
  · intro hc hf hl
    simp [removeCandle, hc, hf, hl]

/-- Witness for claim C7 at a freshly constructed controller. -/
theorem removeCandle_idempotent_witness :
    removeCandle (removeCandle (CandleLoader.init [] 0)) =
      removeCandle (CandleLoader.init [] 0) ∧
    removeCandle (CandleLoader.init [] 0) = CandleLoader.init [] 0 :=
  ⟨(removeCandle_idempotent (CandleLoader.init [] 0)).1,
   (removeCandle_idempotent (CandleLoader.init [] 0)).2 rfl rfl rfl⟩

/-- Claim C8: after `removeCandle`, every subsequent `animate` and
`updatePosition` call leaves the whole state (controller fields and scene)
exactly unchanged, and there is no failing path. -/
theorem post_remove_noop (sin : ℚ → ℚ) (st : CandleLoader) (dt x y z : ℚ) :
    animate sin (removeCandle st) dt = removeCandle st ∧
    updatePosition (removeCandle st) x y z = removeCandle st := by
  obtain ⟨h1, h2, h3⟩ := removeCandle_all_none st
  exact ⟨by simp [animate, h2, h3], by simp [updatePosition, h1]⟩

/-- Claim C9: `animate` leaves the candle node (position, scale, rotation,
children), the flame group (position and scale), the scene attachment list
and the id counter unchanged, and on the parts it does touch it only changes
the two cone meshes' scale and horizontal offset and the light's intensity
and vertical position. -/
theorem animate_mutation_footprint (sin : ℚ → ℚ) (st : CandleLoader) (dt : ℚ) :
    (animate sin st dt).candle = st.candle ∧
    (animate sin st dt).flame = st.flame ∧
    (animate sin st dt).scene = st.scene ∧
    (animate sin st dt).nextId = st.nextId ∧
    ((animate sin st dt).mainFlame.map
        (fun n => (n.geometry, n.material, n.position.y, n.position.z))) =
      (st.mainFlame.map (fun n => (n.geometry, n.material, n.position.y, n.position.z))) ∧
    ((animate sin st dt).innerFlame.map
        (fun n => (n.geometry, n.material, n.position.y, n.position.z))) =
      (st.innerFlame.map (fun n => (n.geometry, n.material, n.position.y, n.position.z))) ∧
    ((animate sin st dt).flameLight.map
        (fun p => (p.1, p.2.color, p.2.distance, p.2.castShadow, p.2.shadowCameraNear,
          p.2.shadowCameraFar, p.2.position.x, p.2.position.z))) =
      (st.flameLight.map
        (fun p => (p.1, p.2.color, p.2.distance, p.2.castShadow, p.2.shadowCameraNear,
          p.2.shadowCameraFar, p.2.position.x, p.2.position.z))) := by
  obtain ⟨s0, c0, f0, l0, m0, i0, t0, n0⟩ := st
  rcases f0 with _ | fg <;> rcases l0 with _ | lp <;>
    rcases m0 with _ | m <;> rcases i0 with _ | i <;>
      simp [animate]

/-- Claim C10: `removeCandle` does not reset the accumulated animation time,
so after a remove and a successful reload, the first `animate(dt)` continues
from the previously reached elapsed time. -/
theorem flameTime_survives_reload (sin : ℚ → ℚ) (st : CandleLoader)
    (options : LoadOptions) (gltf : GltfScene) (dt : ℚ) :
    (removeCandle st).flameTime = st.flameTime ∧
    (animate sin
        (loadCandle (removeCandle st) options (GltfLoadResult.success gltf)).1
        dt).flameTime = st.flameTime + dt := by
  obtain ⟨s0, c0, f0, l0, m0, i0, t0, n0⟩ := st
  rcases c0 with _ | c <;> rcases f0 with _ | f <;> rcases l0 with _ | l <;>
    simp [removeCandle, loadCandle, createFlame, animate]

end CandleSpec
